import Mathlib

/-!
Shallow embedding of `src/custom_components/shl/api.py` (class `ShlApiClient`)
together with the constants it imports from `src/custom_components/shl/const.py`.

Modelling conventions:
* Python `datetime` timestamps are integers (`Int`); `datetime.min` is a fixed
  minimal sentinel.  The current wall-clock time is passed explicitly as `now`.
* Python dicts whose keys and values are strings are association lists
  `List (String × String)`; JSON values are the inductive `Json`.
* Python exceptions are the inductive `PyExc`; an operation that can raise
  returns `Except PyExc _` or records the escaped exception in a result field.
* Every method of the class becomes a function taking the receiver state
  (`ShlApiClient`) explicitly; an operation's observable effects (returned
  value, log messages, HTTP requests issued, exception propagated to the
  caller, updated receiver state) are collected in a `CallResult`.
* The HTTP exchange performed inside `api_wrapper`'s `try` block is abstracted
  by a `TransportOutcome` parameter: either the exchange completes and (for
  GET) the response body parses to a `Json` value, or some exception is raised
  during the exchange (timeout, network error, parse failure, anything else).
-/

namespace ShlSpec

/-- From `const.py`: `NAME = "SHL"`. -/
def NAME : String := "SHL"

/-- From `const.py`: `VERSION = "0.0.1"`. -/
def VERSION : String := "0.0.1"

/-- From `api.py` line 19: `BASE_URL = "https://openapi.shl.se"`. -/
def BASE_URL : String := "https://openapi.shl.se"

/-- From `api.py` line 20: `AUTH = "/oauth2/token"`. -/
def AUTH : String := "/oauth2/token"

/-- From `api.py` line 18: the default header dict
`{"Content-type": "application/json; charset=UTF-8", "User-Agent": f"{NAME}/{VERSION}"}`. -/
def HEADERS : List (String × String) :=
  [("Content-type", "application/json; charset=UTF-8"),
   ("User-Agent", NAME ++ "/" ++ VERSION)]

/-- JSON values, as produced by `response.json()`. -/
inductive Json where
  | str : String → Json
  | int : Int → Json
  | obj : List (String × Json) → Json
  | arr : List Json → Json
  | bool : Bool → Json
  | null : Json

/-- The Python exceptions relevant to `api.py`: the four `except` clauses of
`api_wrapper` distinguish `asyncio.TimeoutError`, `(KeyError, TypeError)`,
`(aiohttp.ClientError, socket.gaierror)` and a broad `Exception`. -/
inductive PyExc where
  | timeoutError
  | keyError (key : String)
  | typeError (msg : String)
  | valueError (msg : String)
  | clientError
  | gaierror
  | attributeError (msg : String)
  | otherError (msg : String)
deriving DecidableEq, Repr

/-- The log message emitted by the `except` chain of `api_wrapper`
(lines 166-186) for a given exception, keeping the category-specific
prefix and the URL it references (the trailing exception text of the
`%s - %s` format is elided). `except asyncio.TimeoutError` logs
"Timeout error fetching information from %s"; `except (KeyError, TypeError)`
logs "Error parsing information from %s"; `except (aiohttp.ClientError,
socket.gaierror)` logs "Error fetching information from %s"; the broad
`except Exception` logs "Something really wrong happened!". -/
def logMessage (e : PyExc) (url : String) : String :=
  match e with
  | .timeoutError => "Timeout error fetching information from " ++ url
  | .keyError _ => "Error parsing information from " ++ url
  | .typeError _ => "Error parsing information from " ++ url
  | .clientError => "Error fetching information from " ++ url
  | .gaierror => "Error fetching information from " ++ url
  | .valueError _ => "Something really wrong happened!"
  | .attributeError _ => "Something really wrong happened!"
  | .otherError _ => "Something really wrong happened!"

/-- Model of Python `datetime.min`, the value `self._expires` is initialised
to in `__init__` (line 35). Any concrete wall-clock reading is at least this. -/
def datetimeMin : Int := 0

/-- The state of a `ShlApiClient` instance: the fields assigned in
`__init__` (lines 26-36). The `aiohttp.ClientSession` handle is externally
owned and opaque to every claim, so it is not part of the state. -/
structure ShlApiClient where
  client_id : String
  client_secret : String
  team_ids : List String
  expires : Int
  headers : Option (List (String × String))

/-- `__init__` (lines 26-36): stores credentials and team ids, sets
`_expires = datetime.min` and `_headers = None`. -/
def ShlApiClient.init (client_id client_secret : String)
    (team_ids : List String) : ShlApiClient :=
  ⟨client_id, client_secret, team_ids, datetimeMin, none⟩

/-- Python truthiness of a dict of strings: an empty dict is falsy. -/
def dictTruthy (d : List (String × String)) : Bool := !d.isEmpty

/-- Python truthiness of `self._headers`, which is either `None` or a dict:
`None` is falsy, an empty dict is falsy, a non-empty dict is truthy. -/
def optDictTruthy : Option (List (String × String)) → Bool
  | none => false
  | some d => !d.isEmpty

/-- Python truthiness of the bound-method object `self.is_connected` as it
appears (without parentheses, hence without being called) on line 138 of
`api.py`: a bound method is an object, and any method object is truthy. -/
def methodRefTruthy : Bool := true

/-- `is_connected` (lines 50-52): `return self._headers and self._expires >
datetime.now()`. The Python `and` short-circuits on the truthiness of
`self._headers`; the overall truthiness of the returned value is the boolean
computed here. The method reads state and the clock only: it is a pure
function of `(s, now)` in this embedding, performing no I/O and returning no
updated state. -/
def ShlApiClient.is_connected (s : ShlApiClient) (now : Int) : Bool :=
  optDictTruthy s.headers && decide (s.expires > now)

/-- `generate_url` (lines 54-57):
`f"{BASE_URL}/seasons/{season}/{query}" if season else f"{BASE_URL}/{query}"`.
The Python condition is the truthiness of the integer `season`, i.e.
`season ≠ 0`. In the source `season` has default value `0`; callers that use
the default are modelled by passing `0` explicitly. -/
def generate_url (query : String) (season : Int) : String :=
  if season ≠ 0 then
    BASE_URL ++ "/seasons/" ++ toString season ++ "/" ++ query
  else
    BASE_URL ++ "/" ++ query

/-- An HTTP request as handed to the `aiohttp` session by `api_wrapper`:
the method, the URL, the headers actually sent (`headers or self._headers`,
where `self._headers` may still be `None`), the `json=data` body for write
methods, and the query parameters. -/
structure Request where
  method : String
  url : String
  headers : Option (List (String × String))
  data : List (String × String)
  params : List (String × String)

/-- Outcome of the HTTP exchange attempted inside `api_wrapper`'s `try`
block: either the exchange completes (and, for GET, `response.json()`
parses to `body`), or an exception `e` is raised during the exchange —
`asyncio.TimeoutError`, `aiohttp.ClientError`/`socket.gaierror`,
a parse failure, or anything else. -/
inductive TransportOutcome where
  | ok (body : Json)
  | raise (e : PyExc)

/-- The observable result of one method call on the client: the receiver
state after the call, the value returned to the caller (`none` models Python
`None`), the log messages emitted, the HTTP requests issued, the exception
propagated to the caller if any, and whether the `self.connect()` branch on
line 139 of `api_wrapper` was entered. -/
structure CallResult where
  state : ShlApiClient
  ret : Option Json
  logs : List String
  requests : List Request
  raised : Option PyExc
  reconnectAttempted : Bool

/-- `api_wrapper` (lines 134-186). Line 138 tests
`not headers and not self.is_connected`: the second conjunct takes the
truthiness of the method object itself (`methodRefTruthy`), not of a call.
Were the branch taken, line 139's `self.connect()` would raise
`AttributeError` (the class defines `async_connect`, not `connect`) outside
the `try` block. Otherwise the `try` block runs the exchange for the given
method with headers `headers or self._headers`; GET returns the parsed JSON
body, PUT/PATCH/POST return nothing, any other method does nothing at all.
Each `except` clause logs one message and falls through, returning `None`. -/
def ShlApiClient.api_wrapper (s : ShlApiClient) (method url : String)
    (data headers params : List (String × String))
    (t : TransportOutcome) : CallResult :=
  if !dictTruthy headers && !methodRefTruthy then
    ⟨s, none, [], [],
      some (.attributeError "ShlApiClient object has no attribute connect"), true⟩
  else
    let effHeaders : Option (List (String × String)) :=
      if dictTruthy headers then some headers else s.headers
    if method = "get" then
      match t with
      | .ok body => ⟨s, some body, [], [⟨"get", url, effHeaders, [], params⟩], none, false⟩
      | .raise e =>
          ⟨s, none, [logMessage e url], [⟨"get", url, effHeaders, [], params⟩], none, false⟩
    else if method = "put" ∨ method = "patch" ∨ method = "post" then
      match t with
      | .ok _ => ⟨s, none, [], [⟨method, url, effHeaders, data, params⟩], none, false⟩
      | .raise e =>
          ⟨s, none, [logMessage e url], [⟨method, url, effHeaders, data, params⟩], none, false⟩
    else
      ⟨s, none, [], [], none, false⟩

/-- Python subscripting `body[k]` where `body` is the value returned by
`api_wrapper` (so possibly `None`): subscripting `None` raises
`TypeError`, subscripting a dict that lacks the key raises `KeyError`,
subscripting other non-dict values by a string key raises `TypeError`. -/
def pyGetItem (body : Option Json) (k : String) : Except PyExc Json :=
  match body with
  | none => .error (.typeError "NoneType object is not subscriptable")
  | some (.obj kvs) =>
      match kvs.lookup k with
      | some v => .ok v
      | none => .error (.keyError k)
  | some _ => .error (.typeError "object is not subscriptable")

/-- Python `int(x)` on a JSON value: an int is returned as is, a string is
parsed (raising `ValueError` if unparsable), anything else raises
`TypeError`. -/
def pyInt : Json → Except PyExc Int
  | .int n => .ok n
  | .str s =>
      match s.toInt? with
      | some n => .ok n
      | none => .error (.valueError "invalid literal for int")
  | _ => .error (.typeError "int argument must be a string or a number")

/-- Python `datetime.now() + int(...)` as written on line 45 of `api.py`:
in Python, adding an `int` to a `datetime` is unsupported (only
`datetime + timedelta` is defined) and raises `TypeError`, whatever the
operands are. -/
def datetimeAddInt (_now : Int) (_seconds : Int) : Except PyExc Int :=
  .error (.typeError "unsupported operand types for +: datetime and int")

/-- Python string concatenation `a + b` where `b` is a JSON value: defined
only when `b` is a string, otherwise `TypeError` (line 47 concatenates
`"Bearer "` with `body['access_token']`, whatever JSON type that holds). -/
def pyStrAdd (a : String) : Json → Except PyExc String
  | .str b => .ok (a ++ b)
  | _ => .error (.typeError "can only concatenate str to str")

/-- Python dict assignment `d[k] = v` on a string dict modelled as an
association list: replaces the binding if the key is present, otherwise
appends it. -/
def dictSet (d : List (String × String)) (k v : String) : List (String × String) :=
  if (d.lookup k).isSome then
    d.map (fun p => if p.1 = k then (k, v) else p)
  else
    d ++ [(k, v)]

/-- `async_connect` (lines 38-48): POSTs the form-encoded credentials to
`BASE_URL + AUTH` through `api_wrapper` with a `User-Agent`-only header
override, binds the wrapper's return value to `body`, then executes in order
`self._expires = datetime.now() + int(body['expires_in'])`,
`self._headers = HEADERS.copy()`,
`self._headers['Authorization'] = "Bearer " + body['access_token']`,
`return body`. Each step that raises propagates to the caller (there is no
`try` in `async_connect`), and assignments before the raising step keep
their effect. -/
def ShlApiClient.async_connect (s : ShlApiClient) (now : Int)
    (t : TransportOutcome) : CallResult :=
  let form := [("client_id", s.client_id),
               ("client_secret", s.client_secret),
               ("grant_type", "client_credentials")]
  let hdrs := [("User-Agent", NAME ++ "/" ++ VERSION)]
  let w := s.api_wrapper "post" (BASE_URL ++ AUTH) form hdrs [] t
  match w.raised with
  | some e => ⟨w.state, none, w.logs, w.requests, some e, w.reconnectAttempted⟩
  | none =>
    match pyGetItem w.ret "expires_in" with
    | .error e => ⟨w.state, none, w.logs, w.requests, some e, w.reconnectAttempted⟩
    | .ok expVal =>
      match pyInt expVal with
      | .error e => ⟨w.state, none, w.logs, w.requests, some e, w.reconnectAttempted⟩
      | .ok expSeconds =>
        match datetimeAddInt now expSeconds with
        | .error e => ⟨w.state, none, w.logs, w.requests, some e, w.reconnectAttempted⟩
        | .ok newExpires =>
          let s1 : ShlApiClient :=
            ⟨w.state.client_id, w.state.client_secret, w.state.team_ids,
             newExpires, some HEADERS⟩
          match pyGetItem w.ret "access_token" with
          | .error e => ⟨s1, none, w.logs, w.requests, some e, w.reconnectAttempted⟩
          | .ok tok =>
            match pyStrAdd "Bearer " tok with
            | .error e => ⟨s1, none, w.logs, w.requests, some e, w.reconnectAttempted⟩
            | .ok authValue =>
              ⟨⟨s1.client_id, s1.client_secret, s1.team_ids, s1.expires,
                some (dictSet HEADERS "Authorization" authValue)⟩,
               w.ret, w.logs, w.requests, none, w.reconnectAttempted⟩

/-- `async_get_articles` (lines 59-65): GET on `generate_url("articles")`;
if the `team_ids` argument is truthy (non-empty), sends
`params = {'teamIds': ",".join(team_ids)}`, else no params. -/
def ShlApiClient.async_get_articles (s : ShlApiClient) (team_ids : List String)
    (t : TransportOutcome) : CallResult :=
  let url := generate_url "articles" 0
  if !team_ids.isEmpty then
    s.api_wrapper "get" url [] [] [("teamIds", String.intercalate "," team_ids)] t
  else
    s.api_wrapper "get" url [] [] [] t

/-- `async_get_games` (lines 67-73): GET on `generate_url("games", season)`.
The guard tests the `team_ids` argument, but line 71 joins `self._team_ids`
(the ids stored at construction): `params = {'teamIds': ",".join(self._team_ids)}`. -/
def ShlApiClient.async_get_games (s : ShlApiClient) (season : Int)
    (team_ids : List String) (t : TransportOutcome) : CallResult :=
  let url := generate_url "games" season
  if !team_ids.isEmpty then
    s.api_wrapper "get" url [] [] [("teamIds", String.intercalate "," s.team_ids)] t
  else
    s.api_wrapper "get" url [] [] [] t

/-- `async_get_game` (lines 75-78): GET on
`generate_url(f"games/{match_id}.json", season)`, no params. -/
def ShlApiClient.async_get_game (s : ShlApiClient) (season : Int)
    (match_id : String) (t : TransportOutcome) : CallResult :=
  let url := generate_url ("games/" ++ match_id ++ ".json") season
  s.api_wrapper "get" url [] [] [] t

/-- `async_get_player_stats` (lines 80-88): builds `params = {'sort': stat}`,
adds `params['team_ids'] = ",".join(team_ids)` when the argument is truthy,
then GETs `generate_url("statistics/players.json", season)`. -/
def ShlApiClient.async_get_player_stats (s : ShlApiClient) (season : Int)
    (stat : String) (team_ids : List String) (t : TransportOutcome) : CallResult :=
  let params0 := [("sort", stat)]
  let params1 :=
    if !team_ids.isEmpty then
      dictSet params0 "team_ids" (String.intercalate "," team_ids)
    else params0
  s.api_wrapper "get" (generate_url "statistics/players.json" season) [] [] params1 t

/-- `async_get_goalie_stats` (lines 90-99): same shape as the player
statistics fetch, on `generate_url("statistics/goalkeepers.json", season)`. -/
def ShlApiClient.async_get_goalie_stats (s : ShlApiClient) (season : Int)
    (stat : String) (team_ids : List String) (t : TransportOutcome) : CallResult :=
  let params0 := [("sort", stat)]
  let params1 :=
    if !team_ids.isEmpty then
      dictSet params0 "team_ids" (String.intercalate "," team_ids)
    else params0
  s.api_wrapper "get" (generate_url "statistics/goalkeepers.json" season) [] [] params1 t

/-- `async_get_teams` (lines 101-104): GET on `generate_url("teams.json")`,
no params. -/
def ShlApiClient.async_get_teams (s : ShlApiClient) (t : TransportOutcome) : CallResult :=
  s.api_wrapper "get" (generate_url "teams.json" 0) [] [] [] t

/-- `async_get_team_stats` (lines 106-111): GET on
`generate_url("statistics/teams/standings.json", season)`, with
`params = {'team_ids': ",".join(team_ids)}` when the argument is truthy. -/
def ShlApiClient.async_get_team_stats (s : ShlApiClient) (season : Int)
    (team_ids : List String) (t : TransportOutcome) : CallResult :=
  let url := generate_url "statistics/teams/standings.json" season
  if !team_ids.isEmpty then
    s.api_wrapper "get" url [] [] [("team_ids", String.intercalate "," team_ids)] t
  else
    s.api_wrapper "get" url [] [] [] t

/-- `async_get_team_player_stats` (lines 113-116): GET on
`generate_url(f"teams/{team_code}.json")`, no params. -/
def ShlApiClient.async_get_team_player_stats (s : ShlApiClient)
    (team_code : String) (t : TransportOutcome) : CallResult :=
  s.api_wrapper "get" (generate_url ("teams/" ++ team_code ++ ".json") 0) [] [] [] t

/-- `async_get_videos` (lines 118-123): GET on `generate_url("videos.json")`,
with `params = {'team_ids': ",".join(team_ids)}` when the argument is truthy. -/
def ShlApiClient.async_get_videos (s : ShlApiClient) (team_ids : List String)
    (t : TransportOutcome) : CallResult :=
  let url := generate_url "videos.json" 0
  if !team_ids.isEmpty then
    s.api_wrapper "get" url [] [] [("team_ids", String.intercalate "," team_ids)] t
  else
    s.api_wrapper "get" url [] [] [] t

/-- `async_get_data` (lines 125-132): fetches games then articles
sequentially (the second call sees the state left by the first), iterates
both results in no-op loops, and returns `None`. The pair of call results is
exposed for reasoning; `t1` and `t2` are the two exchanges' outcomes. -/
def ShlApiClient.async_get_data (s : ShlApiClient) (season : Int)
    (team_ids : List String) (t1 t2 : TransportOutcome) :
    ShlApiClient × CallResult × CallResult :=
  let games := s.async_get_games season team_ids t1
  let articles := games.state.async_get_articles team_ids t2
  (articles.state, games, articles)

/-! ## Helper lemmas -/

/-- `api_wrapper` never assigns to `self._expires` or `self._headers` on any
path, so the receiver state comes back unchanged. -/
theorem api_wrapper_state_eq (s : ShlApiClient) (method url : String)
    (data headers params : List (String × String)) (t : TransportOutcome) :
    (s.api_wrapper method url data headers params t).state = s := by
  unfold ShlApiClient.api_wrapper
  simp only [methodRefTruthy, Bool.not_true, Bool.and_false, Bool.false_eq_true,
    if_false]
  split
  · cases t <;> rfl
  · split
    · cases t <;> rfl
    · rfl

/-- `async_get_articles` only delegates to `api_wrapper`, so it preserves the
receiver state. -/
theorem async_get_articles_state (s : ShlApiClient) (tids : List String)
    (t : TransportOutcome) : (s.async_get_articles tids t).state = s := by
  unfold ShlApiClient.async_get_articles
  split <;> apply api_wrapper_state_eq

/-- `async_get_games` only delegates to `api_wrapper`, so it preserves the
receiver state. -/
theorem async_get_games_state (s : ShlApiClient) (season : Int)
    (tids : List String) (t : TransportOutcome) :
    (s.async_get_games season tids t).state = s := by
  unfold ShlApiClient.async_get_games
  split <;> apply api_wrapper_state_eq

/-- A concrete client, as built by `ShlApiClient("client", "secret", ["FHC"],
session)`: stored team filter `["FHC"]`, `_expires = datetime.min`,
`_headers = None`. -/
def sampleClient : ShlApiClient := ShlApiClient.init "client" "secret" ["FHC"]

/-! ## Claims -/

/-- Claim C1. The claim states that when the token endpoint responds
successfully with integer `expires_in` and string `access_token`,
`async_connect` stores expiry `now + expires_in`, installs the default
header set with `Authorization: Bearer <token>`, and returns the raw body.
The code does not: `api_wrapper`'s `post` branch never returns the response
body, so `body` is `None` and `body['expires_in']` on line 45 raises
`TypeError`, which propagates out of `async_connect`; the state is left
unchanged (no expiry stored, no headers installed) and nothing is returned.
This holds for every successful transport outcome, whatever JSON body the
endpoint produced. -/
theorem C1_connect_success_stores_nothing_and_raises (s : ShlApiClient)
    (now : Int) (body : Json) :
    (s.async_connect now (.ok body)).raised =
      some (.typeError "NoneType object is not subscriptable") ∧
    (s.async_connect now (.ok body)).state = s ∧
    (s.async_connect now (.ok body)).ret = none :=
  ⟨rfl, rfl, rfl⟩

/-- Claim C2. The claim states that when the underlying exchange fails
(timeout, malformed JSON or missing keys, network error), `async_connect`
raises nothing and returns nothing, the failure being logged only. In the
code the failure is indeed caught and logged inside `api_wrapper`, but
`api_wrapper` then returns `None`, and `async_connect` immediately
subscripts that `None` on line 45, raising a `TypeError` that propagates to
`async_connect`'s caller: the call does not fail silently. -/
theorem C2_connect_failure_raises (s : ShlApiClient) (now : Int) (e : PyExc) :
    (s.async_connect now (.raise e)).raised =
      some (.typeError "NoneType object is not subscriptable") ∧
    (s.async_connect now (.raise e)).logs = [logMessage e (BASE_URL ++ AUTH)] ∧
    (s.async_connect now (.raise e)).state = s :=
  ⟨rfl, rfl, rfl⟩

/-- Claim C3. `is_connected` returns a truthy value exactly when a (non-empty)
header set exists and the current time is strictly before the stored expiry,
and on a freshly constructed client it is falsy. In this embedding
`is_connected` is a pure function of the state and the clock reading: it
returns no updated state and issues no request, which is the claim's
"no I/O and mutates no state" part. -/
theorem C3_is_connected_iff :
    (∀ (s : ShlApiClient) (now : Int),
      s.is_connected now = true ↔
        ((∃ h, s.headers = some h ∧ h ≠ []) ∧ now < s.expires)) ∧
    (∀ (cid csec : String) (tids : List String) (now : Int),
      (ShlApiClient.init cid csec tids).is_connected now = false) := by
  constructor
  · intro s now
    unfold ShlApiClient.is_connected optDictTruthy
    cases hh : s.headers with
    | none => simp [hh]
    | some d =>
        cases d with
        | nil => simp [hh]
        | cons a l => simp [hh, gt_iff_lt, List.isEmpty]
  · intro cid csec tids now
    rfl

/-- Claim C4. `generate_url(path, season)` produces
`{base}/seasons/{season}/{path}` for non-zero seasons and `{base}/{path}`
for season `0`; concretely `generate_url("games.json", 0)` and
`generate_url("games.json", 2022)` give the two literal URLs of the claim. -/
theorem C4_generate_url_templates :
    (∀ (path : String) (season : Int), season ≠ 0 →
      generate_url path season =
        BASE_URL ++ "/seasons/" ++ toString season ++ "/" ++ path) ∧
    (∀ path : String, generate_url path 0 = BASE_URL ++ "/" ++ path) ∧
    generate_url "games.json" 0 = "https://openapi.shl.se/games.json" ∧
    generate_url "games.json" 2022 =
      "https://openapi.shl.se/seasons/2022/games.json" := by
  refine ⟨?_, ?_, by rfl, by rfl⟩
  · intro path season hs
    unfold generate_url
    rw [if_pos hs]
  · intro path
    rfl

/-- Claim C4 witness: the non-zero-season template instantiated at season
1975, with the hypothesis `1975 ≠ 0` discharged by `decide`. -/
theorem C4_generate_url_templates_witness :
    generate_url "articles.json" 1975 =
      BASE_URL ++ "/seasons/" ++ toString (1975 : Int) ++ "/" ++ "articles.json" :=
  C4_generate_url_templates.1 "articles.json" 1975 (by decide)

/-- Claim C5. The claim states that every team-scoped fetch sends the
comma-join of the ids passed to it. The code violates this in
`async_get_games`: on a client constructed with stored team ids `["FHC"]`,
the call `async_get_games(2022, ["HV71"])` sends `teamIds=FHC` (line 71
joins `self._team_ids`), not the passed `"HV71"`; `async_get_articles` with
the same argument does send the comma-join of the passed ids, and an empty
list makes `async_get_games` send no scoping parameter at all. -/
theorem C5_games_scoping_uses_stored_ids :
    (sampleClient.async_get_games 2022 ["HV71"] (.ok (Json.obj []))).requests =
      [⟨"get", "https://openapi.shl.se/seasons/2022/games", none, [],
        [("teamIds", "FHC")]⟩] ∧
    "FHC" ≠ String.intercalate "," ["HV71"] ∧
    (sampleClient.async_get_articles ["HV71"] (.ok (Json.obj []))).requests =
      [⟨"get", "https://openapi.shl.se/articles", none, [],
        [("teamIds", String.intercalate "," ["HV71"])]⟩] ∧
    (sampleClient.async_get_games 2022 [] (.ok (Json.obj []))).requests =
      [⟨"get", "https://openapi.shl.se/seasons/2022/games", none, [], []⟩] :=
  ⟨rfl, by decide, rfl, rfl⟩

/-- Claim C6. For every call to `api_wrapper` with one of the four handled
methods, any exception raised during the exchange is caught at the executor
boundary: exactly one log entry is emitted, carrying the category-specific
message for that exception and the failing URL, the call returns `None`,
and no exception propagates to the caller. -/
theorem C6_executor_swallows_and_logs (s : ShlApiClient) (method url : String)
    (data headers params : List (String × String)) (e : PyExc)
    (h : method = "get" ∨ method = "put" ∨ method = "patch" ∨ method = "post") :
    (s.api_wrapper method url data headers params (.raise e)).logs =
      [logMessage e url] ∧
    (s.api_wrapper method url data headers params (.raise e)).ret = none ∧
    (s.api_wrapper method url data headers params (.raise e)).raised = none := by
  rcases h with h | h | h | h <;> subst h <;>
    simp [ShlApiClient.api_wrapper, methodRefTruthy]

/-- Claim C6 witness: a timeout during a GET of the teams resource is logged
once with the timeout prefix and the URL, the call returns `None` and raises
nothing. -/
theorem C6_executor_swallows_and_logs_witness :
    (sampleClient.api_wrapper "get" "https://openapi.shl.se/teams.json" [] [] []
        (.raise .timeoutError)).logs =
      ["Timeout error fetching information from https://openapi.shl.se/teams.json"] ∧
    (sampleClient.api_wrapper "get" "https://openapi.shl.se/teams.json" [] [] []
        (.raise .timeoutError)).ret = none ∧
    (sampleClient.api_wrapper "get" "https://openapi.shl.se/teams.json" [] [] []
        (.raise .timeoutError)).raised = none :=
  C6_executor_swallows_and_logs sampleClient "get"
    "https://openapi.shl.se/teams.json" [] [] [] .timeoutError (Or.inl rfl)

/-- Claim C7. The reconnect branch on line 139 of `api_wrapper` is never
taken, whatever the headers supplied and whatever the client's connectivity
state: line 138 tests the truthiness of the method object `self.is_connected`
instead of calling it, so the guard is always false and `api_wrapper` never
initiates a connect from inside itself. -/
theorem C7_executor_never_reconnects (s : ShlApiClient) (method url : String)
    (data headers params : List (String × String)) (t : TransportOutcome) :
    (s.api_wrapper method url data headers params t).reconnectAttempted = false := by
  unfold ShlApiClient.api_wrapper
  simp only [methodRefTruthy, Bool.not_true, Bool.and_false, Bool.false_eq_true,
    if_false]
  split
  · cases t <;> rfl
  · split
    · cases t <;> rfl
    · rfl

/-- Claim C8. A GET whose response body parses as JSON returns exactly that
parsed structure to the caller, unmodified; PUT, PATCH and POST perform the
request (exactly one request is issued) and return no payload. -/
theorem C8_get_returns_json_writes_return_none (s : ShlApiClient) (url : String)
    (data headers params : List (String × String)) (body : Json) (method : String) :
    ((s.api_wrapper "get" url data headers params (.ok body)).ret = some body ∧
     (s.api_wrapper "get" url data headers params (.ok body)).requests.length = 1) ∧
    ((method = "put" ∨ method = "patch" ∨ method = "post") →
      (s.api_wrapper method url data headers params (.ok body)).ret = none ∧
      (s.api_wrapper method url data headers params (.ok body)).requests.length = 1) := by
  constructor
  · constructor <;> simp [ShlApiClient.api_wrapper, methodRefTruthy]
  · rintro (h | h | h) <;> subst h <;>
      simp [ShlApiClient.api_wrapper, methodRefTruthy]

/-- Claim C8 witness: a POST of the token form completes, issues one request
and returns no payload; the method hypothesis is discharged at `"post"`. -/
theorem C8_get_returns_json_writes_return_none_witness :
    (sampleClient.api_wrapper "post" "https://openapi.shl.se/oauth2/token"
        [] [] [] (.ok (Json.str "x"))).ret = none ∧
    (sampleClient.api_wrapper "post" "https://openapi.shl.se/oauth2/token"
        [] [] [] (.ok (Json.str "x"))).requests.length = 1 :=
  (C8_get_returns_json_writes_return_none sampleClient
    "https://openapi.shl.se/oauth2/token" [] [] [] (Json.str "x") "post").2
    (Or.inr (Or.inr rfl))

/-- Claim C9. The token state (expiry timestamp and bearer header set,
together with the credential and team-filter fields) is left unchanged by
`api_wrapper` and by every typed fetch operation, for every argument and
every transport outcome: only `async_connect` can mutate it. -/
theorem C9_fetches_preserve_token_state (s : ShlApiClient) (season : Int)
    (method url stat code mid : String)
    (data headers params : List (String × String)) (tids : List String)
    (t t2 : TransportOutcome) :
    (s.api_wrapper method url data headers params t).state = s ∧
    (s.async_get_articles tids t).state = s ∧
    (s.async_get_games season tids t).state = s ∧
    (s.async_get_game season mid t).state = s ∧
    (s.async_get_player_stats season stat tids t).state = s ∧
    (s.async_get_goalie_stats season stat tids t).state = s ∧
    (s.async_get_teams t).state = s ∧
    (s.async_get_team_stats season tids t).state = s ∧
    (s.async_get_team_player_stats code t).state = s ∧
    (s.async_get_videos tids t).state = s ∧
    (s.async_get_data season tids t t2).1 = s := by
  refine ⟨api_wrapper_state_eq s method url data headers params t,
    async_get_articles_state s tids t, async_get_games_state s season tids t,
    ?_, ?_, ?_, ?_, ?_, ?_, ?_, ?_⟩
  · apply api_wrapper_state_eq
  · apply api_wrapper_state_eq
  · apply api_wrapper_state_eq
  · apply api_wrapper_state_eq
  · unfold ShlApiClient.async_get_team_stats
    split <;> apply api_wrapper_state_eq
  · apply api_wrapper_state_eq
  · unfold ShlApiClient.async_get_videos
    split <;> apply api_wrapper_state_eq
  · simp only [ShlApiClient.async_get_data]
    rw [async_get_articles_state, async_get_games_state]

/-- Claim C10. For every method string outside `{"get", "put", "patch",
"post"}`, `api_wrapper` falls through every branch: it issues no HTTP
request, returns `None`, raises nothing and logs nothing. -/
theorem C10_unknown_method_is_noop (s : ShlApiClient) (method url : String)
    (data headers params : List (String × String)) (t : TransportOutcome)
    (h1 : method ≠ "get") (h2 : method ≠ "put") (h3 : method ≠ "patch")
    (h4 : method ≠ "post") :
    s.api_wrapper method url data headers params t =
      ⟨s, none, [], [], none, false⟩ := by
  unfold ShlApiClient.api_wrapper
  simp [methodRefTruthy, h1, h2, h3, h4]

/-- Claim C10 witness: a `"delete"` call does nothing at all; the four
method inequalities are discharged by `decide`. -/
theorem C10_unknown_method_is_noop_witness :
    sampleClient.api_wrapper "delete" "https://openapi.shl.se/teams.json"
      [] [] [] (.ok Json.null) = ⟨sampleClient, none, [], [], none, false⟩ :=
  C10_unknown_method_is_noop sampleClient "delete"
    "https://openapi.shl.se/teams.json" [] [] [] (.ok Json.null)
    (by decide) (by decide) (by decide) (by decide)

end ShlSpec
